import Mathlib

/-!
Verification of the CVXPort coordination layer and bar-aggregation data
structures against their natural-language specification.

The development shallowly embeds:
* `cvxport/const.py` — the controller response-code catalog `CCode` and the
  frequency enumeration `Freq`;
* `cvxport/data.py` — the `Bar`, `TimedBars` and `BarPanel` aggregation
  classes (prices and timestamps are modelled as rationals, numpy row-arrays
  as lists of rows);
* the satellite-worker coordination protocol (registration handshake,
  heartbeat loop, service dispatch).  The worker implementation itself is not
  part of the sources, only its unit tests are, so those definitions are
  modelled from the specification and are marked as such.
-/

namespace CVXPort

/-! ## Response codes (`cvxport/const.py`, class `CCode`) -/

/-- The controller response-code enumeration, constructor names and values
exactly as in `cvxport/const.py`. -/
inductive CCode
  | Succeeded
  | AlreadyRegistered
  | MissingRequiredPort
  | NotInRegistry
  | UnknownRequest
  | UnKnownBroker
  | ServerNotOnline
  | MissingDataServerInfo
  | MissingName
  deriving DecidableEq, Repr

/-- Numeric value of each response code, as assigned in `cvxport/const.py`. -/
def CCode.val : CCode → ℤ
  | .Succeeded => 0
  | .AlreadyRegistered => -1
  | .MissingRequiredPort => -2
  | .NotInRegistry => -3
  | .UnknownRequest => -4
  | .UnKnownBroker => -5
  | .ServerNotOnline => -6
  | .MissingDataServerInfo => -7
  | .MissingName => -8

/-- The Python identifier of each `CCode` member, as written in the source. -/
def CCode.pyName : CCode → String
  | .Succeeded => "Succeeded"
  | .AlreadyRegistered => "AlreadyRegistered"
  | .MissingRequiredPort => "MissingRequiredPort"
  | .NotInRegistry => "NotInRegistry"
  | .UnknownRequest => "UnknownRequest"
  | .UnKnownBroker => "UnKnownBroker"
  | .ServerNotOnline => "ServerNotOnline"
  | .MissingDataServerInfo => "MissingDataServerInfo"
  | .MissingName => "MissingName"

/-- All members of `CCode`, in source order. -/
def ccodeList : List CCode :=
  [.Succeeded, .AlreadyRegistered, .MissingRequiredPort, .NotInRegistry,
   .UnknownRequest, .UnKnownBroker, .ServerNotOnline, .MissingDataServerInfo,
   .MissingName]

/-- The response-code catalog as (name, value) pairs, derived from the
enumeration. -/
def ccodeCatalog : List (String × ℤ) :=
  ccodeList.map (fun c => (c.pyName, c.val))

/-! ## Frequencies (`cvxport/const.py`, class `Freq`) -/

/-- The bar-frequency enumeration from `cvxport/const.py`. -/
inductive Freq
  | MONTHLY
  | DAILY
  | HOURLY
  | MINUTE
  | MINUTE5
  | SECOND
  | SECOND5
  | SECOND10
  | TICK
  deriving DecidableEq, Repr

/-! ## Single bars (`cvxport/data.py`, class `Bar`)

A `Bar` holds the open/high/low/close of the current period; each field is
`None` (here `Option.none`) until the first tick arrives.  Python raises a
`TypeError` when `max`/`min` compares `None` with a number, so `update` is
partial: it returns `none` exactly when the source would raise. -/

structure Bar where
  op : Option ℚ
  high : Option ℚ
  low : Option ℚ
  close : Option ℚ
  deriving DecidableEq, Repr

/-- A freshly constructed `Bar()`: all four fields are `None`. -/
def Bar.empty : Bar := ⟨none, none, none, none⟩

/-- `Bar.update`: if `open` is `None`, set all four fields to `price`; then
`high = max(high, price)`, `low = min(low, price)`, `close = price`.
Returns `none` when Python would raise comparing `None` to a number. -/
def Bar.update (b : Bar) (price : ℚ) : Option Bar :=
  let b1 := if b.op = none then (⟨some price, some price, some price, some price⟩ : Bar) else b
  match b1.high, b1.low with
  | some h, some l => some ⟨b1.op, some (max h price), some (min l price), some price⟩
  | _, _ => none

/-- `Bar.clear`: return the tuple `(open, high, low, close)` and reset all
four fields to `None`.  The first component is the returned tuple, the second
the post-state. -/
def Bar.clear (b : Bar) : (Option ℚ × Option ℚ × Option ℚ × Option ℚ) × Bar :=
  ((b.op, b.high, b.low, b.close), Bar.empty)

/-- Apply a sequence of prices to a bar via `update`, failing if any update
fails. -/
def Bar.updates (b : Bar) : List ℚ → Option Bar
  | [] => some b
  | p :: ps => match b.update p with
    | none => none
    | some b2 => b2.updates ps

/-! ## Timed bars (`cvxport/data.py`, class `TimedBars`)

`TimedBars` aggregates ticks into per-period bars.  Its `__init__` assigns
`self.delta` and `self.unit` through an `if freq == TICK` statement followed
by an `if/elif` chain that starts at `MINUTE`; the `SECOND`, `SECOND5` and
`SECOND10` frequencies match no branch, so neither attribute is assigned for
them.  `__call__` can therefore raise: we model the runtime failure kinds
Python would produce. -/

/-- Runtime failure kinds for the bar-aggregation code: reading an attribute
`__init__` never assigned, a dict lookup of an unknown ticker, a numeric
operation on `None`, and the pandas error from flooring by the month unit. -/
inductive PyError
  | attributeError
  | keyError
  | typeError
  | valueError
  deriving DecidableEq, Repr

/-- Seconds per pandas floor unit string used by `TimedBars`.  `""` is
handled before flooring; `"M"` yields `none` because pandas `floor` rejects
the non-fixed month frequency (the source notes this in a TODO). -/
def unitSeconds : String → Option ℚ
  | "min" => some 60
  | "5min" => some 300
  | "H" => some 3600
  | "D" => some 86400
  | _ => none

/-- Floor a timestamp to a multiple of `s` seconds, modelling
`pd.Timestamp.floor`. -/
def floorTo (t s : ℚ) : ℚ := s * ⌊t / s⌋

/-- `timestamp.floor(self.unit) if self.unit != '' else timestamp`, for a
known unit string; `none` models the pandas error on the month unit. -/
def floorStamp (u : String) (t : ℚ) : Option ℚ :=
  if u = "" then some t
  else match unitSeconds u with
    | none => none
    | some s => some (floorTo t s)

/-- Look up a ticker's bar in the dict (modelled as an association list). -/
def lookupBar (data : List (String × Bar)) (tic : String) : Option Bar :=
  (data.find? (fun kv => kv.1 == tic)).map (fun kv => kv.2)

/-- In-place mutation of the bar stored under a ticker. -/
def storeBar (data : List (String × Bar)) (tic : String) (b : Bar) :
    List (String × Bar) :=
  data.map (fun kv => if kv.1 == tic then (kv.1, b) else kv)

/-- The state of a `TimedBars` instance.  `delta` and `unit` are `Option`s
whose `none` means "attribute never assigned by `__init__`". -/
structure TimedBars where
  timestamp : Option ℚ
  tickers : List String
  data : List (String × Bar)
  delta : Option ℚ
  unit : Option String
  deriving DecidableEq, Repr

/-- `TimedBars.__init__`: the dict maps every ticker to a fresh `Bar`; the
`if freq == TICK` statement runs first, then the `if MINUTE / elif ... elif
MONTHLY` chain.  The three `SECOND*` frequencies match no branch, leaving
`delta` and `unit` unassigned.  The numeric value of the monthly delta
(`pd.Timedelta(1, 'M')`) is modelled as 30 days; no claim depends on it. -/
def TimedBars.init (tickers : List String) (freq : Freq) : TimedBars :=
  let tb0 : TimedBars :=
    ⟨none, tickers, tickers.map (fun t => (t, Bar.empty)), none, none⟩
  let tb1 := if freq = Freq.TICK then { tb0 with delta := some 0, unit := some "" } else tb0
  if freq = Freq.MINUTE then { tb1 with delta := some 60, unit := some "min" }
  else if freq = Freq.MINUTE5 then { tb1 with delta := some 300, unit := some "5min" }
  else if freq = Freq.HOURLY then { tb1 with delta := some 3600, unit := some "H" }
  else if freq = Freq.DAILY then { tb1 with delta := some 86400, unit := some "D" }
  else if freq = Freq.MONTHLY then { tb1 with delta := some 2592000, unit := some "M" }
  else tb1

/-- The `for idx, tic in enumerate(self.tickers)` loop of `__call__`: clear
every ticker's bar into the four arrays.  Yields `none` when a cleared field
is `None` (numpy would then fail to assign it into a float array). -/
def collectClears (data : List (String × Bar)) : List String →
    Option (List ℚ × List ℚ × List ℚ × List ℚ)
  | [] => some ([], [], [], [])
  | tic :: rest =>
    match lookupBar data tic with
    | none => none
    | some b =>
      match b.op, b.high, b.low, b.close with
      | some o, some h, some l, some c =>
        match collectClears data rest with
        | some (os, hs, ls, cs) => some (o :: os, h :: hs, l :: ls, c :: cs)
        | none => none
      | _, _, _, _ => none

/-- `TimedBars.__call__`: update the ticker's bar, then either start the
first period (reading `self.unit`, which raises `AttributeError` when unset)
or, when the period elapsed (reading `self.delta`), clear all bars into
arrays, re-floor the timestamp and return it with the arrays. -/
def TimedBars.call (tb : TimedBars) (timestamp : ℚ) (ticker : String) (price : ℚ) :
    Except PyError (TimedBars × Option (ℚ × List ℚ × List ℚ × List ℚ × List ℚ)) :=
  match lookupBar tb.data ticker with
  | none => .error .keyError
  | some bar =>
    match bar.update price with
    | none => .error .typeError
    | some b =>
      let data2 := storeBar tb.data ticker b
      match tb.timestamp with
      | none =>
        match tb.unit with
        | none => .error .attributeError
        | some u =>
          match floorStamp u timestamp with
          | none => .error .valueError
          | some t2 => .ok ({ tb with data := data2, timestamp := some t2 }, none)
      | some ts =>
        match tb.delta with
        | none => .error .attributeError
        | some d =>
          if ts + d ≤ timestamp then
            match collectClears data2 tb.tickers with
            | none => .error .typeError
            | some (os, hs, ls, cs) =>
              let data3 := data2.map (fun kv => (kv.1, Bar.empty))
              match tb.unit with
              | none => .error .attributeError
              | some u =>
                match floorStamp u timestamp with
                | none => .error .valueError
                | some t2 =>
                  .ok ({ tb with data := data3, timestamp := some t2 },
                       some (t2, os, hs, ls, cs))
          else .ok ({ tb with data := data2 }, none)

/-! ## Bar panels (`cvxport/data.py`, class `BarPanel`) -/

/-- numpy's `arr[-k:]` on a list of rows: for `k = 0` the slice is the whole
array, otherwise the last `k` rows. -/
def lastRows (k : ℕ) (rows : List (List ℚ)) : List (List ℚ) :=
  if k = 0 then rows else rows.drop (rows.length - k)

/-- The state of a `BarPanel`: a `TimedBars` for the current period plus the
stored `opens`/`highs`/`lows`/`closes` row arrays. -/
structure BarPanel where
  tickers : List String
  freq : Freq
  lookback : ℕ
  bars : TimedBars
  opens : List (List ℚ)
  highs : List (List ℚ)
  lows : List (List ℚ)
  closes : List (List ℚ)
  deriving DecidableEq, Repr

/-- `BarPanel.__init__`: empty row arrays and a fresh `TimedBars`. -/
def BarPanel.init (tickers : List String) (freq : Freq) (lookback : ℕ) : BarPanel :=
  ⟨tickers, freq, lookback, TimedBars.init tickers freq, [], [], [], []⟩

/-- `BarPanel.__call__`: feed the tick to the `TimedBars`; when a bar is
emitted, append one row to each array, trim all four to the last `lookback`
rows when `len(self.opens) > self.lookback`, and return the bar time with
the (post-state) arrays. -/
def BarPanel.call (bp : BarPanel) (timestamp : ℚ) (ticker : String) (price : ℚ) :
    Except PyError (BarPanel ×
      Option (ℚ × List (List ℚ) × List (List ℚ) × List (List ℚ) × List (List ℚ))) :=
  match bp.bars.call timestamp ticker price with
  | .error e => .error e
  | .ok (tb2, none) => .ok ({ bp with bars := tb2 }, none)
  | .ok (tb2, some (t, os, hs, ls, cs)) =>
    let o1 := bp.opens ++ [os]
    let h1 := bp.highs ++ [hs]
    let l1 := bp.lows ++ [ls]
    let c1 := bp.closes ++ [cs]
    if bp.lookback < o1.length then
      let bp2 : BarPanel :=
        ⟨bp.tickers, bp.freq, bp.lookback, tb2, lastRows bp.lookback o1,
         lastRows bp.lookback h1, lastRows bp.lookback l1, lastRows bp.lookback c1⟩
      .ok (bp2, some (t, bp2.opens, bp2.highs, bp2.lows, bp2.closes))
    else
      let bp2 : BarPanel := ⟨bp.tickers, bp.freq, bp.lookback, tb2, o1, h1, l1, c1⟩
      .ok (bp2, some (t, bp2.opens, bp2.highs, bp2.lows, bp2.closes))

/-- Run a sequence of `(timestamp, ticker, price)` ticks through a panel. -/
def BarPanel.applyCalls (bp : BarPanel) : List (ℚ × String × ℚ) → Except PyError BarPanel
  | [] => .ok bp
  | (t, tic, p) :: rest =>
    match bp.call t tic p with
    | .error e => .error e
    | .ok (bp2, _) => bp2.applyCalls rest

/-- The row-array invariant of a `BarPanel`: the four arrays have equal row
counts, bounded by the lookback. -/
def BarPanel.rowInv (bp : BarPanel) : Prop :=
  bp.opens.length = bp.highs.length ∧ bp.opens.length = bp.lows.length ∧
    bp.opens.length = bp.closes.length ∧ bp.opens.length ≤ bp.lookback

deriving instance DecidableEq for Except

/-- Tick sequence used to exercise `barpanel_row_invariant` concretely. -/
def panelInputs : List (ℚ × String × ℚ) := [((0 : ℚ), "a", (1 : ℚ))]

/-- The panel state reached by running `panelInputs` through a fresh
single-ticker tick-frequency panel with lookback 1. -/
def panelFinal : BarPanel :=
  ⟨["a"], Freq.TICK, 1,
   ⟨some 0, ["a"], [("a", ⟨some 1, some 1, some 1, some 1⟩)], some 0, some ""⟩,
   [], [], [], []⟩

/-! ## Satellite worker coordination protocol

`cvxport/worker.py` (`SatelliteWorker`) is not among the sources; only its
unit tests are.  The registration handshake, heartbeat loop and dispatch
loop are therefore modelled from the specification (§4.1, §4.2, §4.3, §6,
§7 of the spec, matching the observable behaviour the tests assert).  Time
is a rational number of seconds; the controller is an environment mapping
the index of each request on the control channel to its reply (`none` means
silence, so the worker waits out the deadline; a present reply is modelled
as immediate, as in the mock controllers).  A single `overhead` parameter
models the scheduling overhead of the whole run — the spec's small ε. -/

/-- Modelled from the spec: configuration surface of the missing
`SatelliteWorker` (§6): identity, resource need and the three timing
parameters. -/
structure WorkerConfig where
  name : String
  requiredResource : ℕ
  registrationTimeout : ℚ
  heartbeatInterval : ℚ
  heartbeatTimeout : ℚ
  deriving DecidableEq, Repr

/-- Modelled from the spec: the events a controller-side observer sees on
the request/reply control channel of the missing worker. -/
inductive Ev
  | send (msg : String)
  | reply (v : ℤ)
  | timeout
  deriving DecidableEq, Repr

/-- Modelled from the spec: outcome of a fatal worker run — the channel
event trace, the terminal error message, and the elapsed time. -/
structure RunResult where
  trace : List Ev
  errMsg : String
  elapsed : ℚ
  deriving DecidableEq, Repr

/-- Modelled from the spec: the registration request wire message
`"<name>|<requiredResource>"` (§6). -/
def regMsg (name : String) (requiredResource : ℕ) : String :=
  name ++ "|" ++ toString requiredResource

/-- Modelled from the spec: the heartbeat wire message `"<name>"` (§6). -/
def hbMsg (name : String) : String := name

/-- Modelled from the spec: the human-readable message derived from a
negative response code (§4.1); only the `AlreadyRegistered` wording is
fixed by observed behaviour, the wording for other codes is a consistent
model choice (spec §9 open question). -/
def codeMessage (name : String) (v : ℤ) : String :=
  if v = -1 then name ++ " already registered"
  else "registration rejected with code " ++ toString v

/-- Modelled from the spec: the heartbeat liveness loop (§4.2) of the
missing worker.  Each round sends `"<name>"`, waits for the reply to the
`k`-th control-channel request; a reply resets the interval timer (the loop
sleeps `interval`), silence fails the round after `timeout`.  Returns the
event trace and the elapsed time, or `none` when the fuel is exhausted
before any fatal condition. -/
def hbLoop (name : String) (interval timeout : ℚ) (env : ℕ → Option ℤ) :
    ℕ → ℕ → ℚ → Option (List Ev × ℚ)
  | _, 0, _ => none
  | k, fuel + 1, t =>
    match env k with
    | none => some ([.send (hbMsg name), .timeout], t + timeout)
    | some v =>
      match hbLoop name interval timeout env (k + 1) fuel (t + interval) with
      | none => none
      | some (tr, e) => some (.send (hbMsg name) :: .reply v :: tr, e)

/-- Modelled from the spec: the run of the missing worker (§4.1, §4.2, §7).
Registration is sent first; silence fails with the registration-timeout
message after `registrationTimeout`; a negative reply fails immediately
with the code-derived message; a non-negative reply starts the heartbeat
loop, whose only fatal outcome is `"Controller unreachable"`.  `overhead`
is the total scheduling overhead of the run. -/
def runWorker (cfg : WorkerConfig) (env : ℕ → Option ℤ) (fuel : ℕ)
    (overhead : ℚ) : Option RunResult :=
  match env 0 with
  | none =>
    some ⟨[.send (regMsg cfg.name cfg.requiredResource), .timeout],
          "Controller registration timeout", cfg.registrationTimeout + overhead⟩
  | some v =>
    if v < 0 then
      some ⟨[.send (regMsg cfg.name cfg.requiredResource), .reply v],
            codeMessage cfg.name v, overhead⟩
    else
      match hbLoop cfg.name cfg.heartbeatInterval cfg.heartbeatTimeout env 1 fuel 0 with
      | none => none
      | some (tr, e) =>
        some ⟨.send (regMsg cfg.name cfg.requiredResource) :: .reply v :: tr,
              "Controller unreachable", e + overhead⟩

/-- The messages the worker sent on the control channel, in order. -/
def sentMsgs (tr : List Ev) : List String :=
  tr.filterMap (fun e => match e with | .send m => some m | _ => none)

/-- The messages the controller observed: a send counts as observed exactly
when the controller answered it (the mock controllers of the tests append
to their log on `recv`, which they only reach for rounds they answer). -/
def observedMsgs : List Ev → List String
  | .send m :: .reply _ :: rest => m :: observedMsgs rest
  | _ :: rest => observedMsgs rest
  | [] => []

/-- Strict request/reply alternation on the control channel: every send is
immediately followed by its round outcome (reply or timeout) before any
other event. -/
def wellFormed : List Ev → Bool
  | [] => true
  | .send _ :: .reply _ :: rest => wellFormed rest
  | .send _ :: .timeout :: rest => wellFormed rest
  | _ => false

/-- Modelled from the spec: a command handler of the missing worker's
service registry (§4.3), which either returns a result or raises. -/
def Handler := Unit → Except String String

/-- Modelled from the spec: look up a command name in the service
registry. -/
def lookupHandler (registry : List (String × Handler)) (cmd : String) : Option Handler :=
  (registry.find? (fun kv => kv.1 == cmd)).map (fun kv => kv.2)

/-- Modelled from the spec: the dispatch loop of the missing worker (§4.3).
Unknown commands are answered `UnknownRequest` and the loop continues; a
known handler runs to completion, a raised error propagates out of the loop
(the replies stop, the error is the terminal one), a returned result is
replied and the loop continues.  Returns the replies sent and the terminal
error, if any. -/
def serve (registry : List (String × Handler)) : List String → List String × Option String
  | [] => ([], none)
  | c :: rest =>
    match lookupHandler registry c with
    | none =>
      let pr := serve registry rest
      ("UnknownRequest" :: pr.1, pr.2)
    | some h =>
      match h () with
      | .error e => ([], some e)
      | .ok r =>
        let pr := serve registry rest
        (r :: pr.1, pr.2)

/-- Silent environment for the registration-timeout witness. -/
def envSilent : ℕ → Option ℤ := fun _ => none

/-- Scenario A configuration: worker "w" requiring resource 7, registration
timeout 1s. -/
def cfgA : WorkerConfig := ⟨"w", 7, 1, 1/2, 1/5⟩

/-- Environment that immediately rejects registration with code −1. -/
def envReject : ℕ → Option ℤ := fun k => if k = 0 then some (-1) else none

/-- Scenario B configuration: like Scenario A but with a huge registration
timeout, showing the rejection latency does not depend on it. -/
def cfgB : WorkerConfig := ⟨"w", 7, 1000, 1/2, 1/5⟩

/-- Scenario C environment: reply 8 to registration, 0 to four heartbeats,
then silence. -/
def envC : ℕ → Option ℤ := fun k => if k = 0 then some 8 else if k ≤ 4 then some 0 else none

/-- Scenario C configuration: heartbeat interval 0.5s, heartbeat timeout
0.2s. -/
def cfgC : WorkerConfig := ⟨"w", 7, 1, 1/2, 1/5⟩

/-- The mock worker's registry: a single `shutdown` command whose handler
raises `JobError('Timesup')`. -/
def mockRegistry : List (String × Handler) := [("shutdown", fun _ => .error "Timesup")]

/-! ## Theorems -/

/-- Every `CCode` member occurs in `ccodeList`. -/
theorem mem_ccodeList (c : CCode) : c ∈ ccodeList := by
  cases c <;> simp [ccodeList]

/-- On a fully populated bar, `update` succeeds and performs the running
open/high/low/close maintenance. -/
theorem Bar.update_full (o h l c p : ℚ) :
    Bar.update ⟨some o, some h, some l, some c⟩ p =
      some ⟨some o, some (max h p), some (min l p), some p⟩ := by
  simp [Bar.update]

/-- Running a populated bar through a list of prices keeps the open, folds
`max` into high, `min` into low, and keeps the last price as close. -/
theorem Bar.updates_full (ps : List ℚ) : ∀ (o h l c : ℚ),
    Bar.updates ⟨some o, some h, some l, some c⟩ ps =
      some ⟨some o, some (ps.foldl max h), some (ps.foldl min l),
            some (ps.foldl (fun _ x => x) c)⟩ := by
  induction ps with
  | nil => intro o h l c; simp [Bar.updates]
  | cons p ps ih =>
      intro o h l c
      simp [Bar.updates, Bar.update_full, ih]

/-- Folding the keep-last function over a list starting from `c` returns the
last element of `c :: ps`. -/
theorem foldl_keep_last (ps : List ℚ) : ∀ c : ℚ,
    ps.foldl (fun _ x => x) c = (c :: ps).getLast (by simp) := by
  induction ps with
  | nil => intro c; simp
  | cons p ps ih =>
      intro c
      simp only [List.foldl_cons]
      rw [ih p]
      rw [List.getLast_cons_cons]

/-- Length of a numpy tail slice. -/
theorem lastRows_length (k : ℕ) (rows : List (List ℚ)) :
    (lastRows k rows).length =
      if k = 0 then rows.length else rows.length - (rows.length - k) := by
  unfold lastRows
  split <;> simp

/-- A single `BarPanel.__call__` preserves the row invariant and the
lookback, provided the lookback is positive. -/
theorem BarPanel.call_step (bp : BarPanel) (t : ℚ) (tic : String) (p : ℚ)
    (bp2 : BarPanel)
    (r : Option (ℚ × List (List ℚ) × List (List ℚ) × List (List ℚ) × List (List ℚ)))
    (hlb : 1 ≤ bp.lookback) (hinv : bp.rowInv)
    (h : bp.call t tic p = .ok (bp2, r)) : bp2.rowInv ∧ bp2.lookback = bp.lookback := by
  obtain ⟨e1, e2, e3, e4⟩ := hinv
  unfold BarPanel.call at h
  cases hbc : bp.bars.call t tic p with
  | error e => rw [hbc] at h; exact absurd h (by simp)
  | ok pr =>
    obtain ⟨tb2, opt⟩ := pr
    rw [hbc] at h
    cases opt with
    | none =>
      simp only [Except.ok.injEq, Prod.mk.injEq] at h
      obtain ⟨h1, -⟩ := h
      subst h1
      exact ⟨⟨e1, e2, e3, e4⟩, rfl⟩
    | some q =>
      obtain ⟨t2, os, hs, ls, cs⟩ := q
      simp only at h
      split at h <;>
        · simp only [Except.ok.injEq, Prod.mk.injEq] at h
          obtain ⟨h1, -⟩ := h
          subst h1
          have hk : ¬ bp.lookback = 0 := by omega
          constructor
          · refine ⟨?_, ?_, ?_, ?_⟩ <;>
              simp_all [BarPanel.rowInv, lastRows_length] <;> omega
          · rfl

/-- `applyCalls` preserves the row invariant and the lookback. -/
theorem BarPanel.applyCalls_inv (inputs : List (ℚ × String × ℚ)) :
    ∀ bp bp2 : BarPanel, 1 ≤ bp.lookback → bp.rowInv →
      bp.applyCalls inputs = .ok bp2 → bp2.rowInv ∧ bp2.lookback = bp.lookback := by
  induction inputs with
  | nil =>
    intro bp bp2 hlb hinv h
    simp only [BarPanel.applyCalls, Except.ok.injEq] at h
    subst h
    exact ⟨hinv, rfl⟩
  | cons x rest ih =>
    obtain ⟨t, tic, p⟩ := x
    intro bp bp2 hlb hinv h
    unfold BarPanel.applyCalls at h
    cases hc : bp.call t tic p with
    | error e => rw [hc] at h; exact absurd h (by simp)
    | ok pr =>
      obtain ⟨bpm, r⟩ := pr
      rw [hc] at h
      obtain ⟨hinv2, hlb2⟩ := BarPanel.call_step bp t tic p bpm r hlb hinv hc
      obtain ⟨hinv3, hlb3⟩ := ih bpm bp2 (hlb2 ▸ hlb) hinv2 h
      exact ⟨hinv3, hlb3.trans hlb2⟩

/-- When `BarPanel.__call__` emits a bar, the returned arrays are exactly the
panel's stored (post-state) arrays. -/
theorem BarPanel.call_returns_stored (bp : BarPanel) (t : ℚ) (tic : String) (p : ℚ)
    (bp2 : BarPanel) (t2 : ℚ) (os hs ls cs : List (List ℚ))
    (h : bp.call t tic p = .ok (bp2, some (t2, os, hs, ls, cs))) :
    os = bp2.opens ∧ hs = bp2.highs ∧ ls = bp2.lows ∧ cs = bp2.closes := by
  unfold BarPanel.call at h
  cases hbc : bp.bars.call t tic p with
  | error e => rw [hbc] at h; exact absurd h (by simp)
  | ok pr =>
    obtain ⟨tb2, opt⟩ := pr
    rw [hbc] at h
    cases opt with
    | none => exact absurd h (by simp)
    | some q =>
      obtain ⟨t3, os3, hs3, ls3, cs3⟩ := q
      simp only at h
      split at h <;>
        · simp only [Except.ok.injEq, Prod.mk.injEq, Option.some.injEq] at h
          obtain ⟨h1, -, h2, h3, h4, h5⟩ := h
          subst h1
          exact ⟨h2.symm, h3.symm, h4.symm, h5.symm⟩

/-- The dict built by `TimedBars.__init__` maps every listed ticker to a
fresh bar. -/
theorem lookupBar_map_empty_of_mem (tickers : List String) (tic : String)
    (h : tic ∈ tickers) :
    lookupBar (tickers.map (fun t => (t, Bar.empty))) tic = some Bar.empty := by
  induction tickers with
  | nil => cases h
  | cons t0 rest ih =>
    simp only [List.map_cons]
    unfold lookupBar
    rw [List.find?_cons]
    by_cases h0 : t0 = tic
    · subst h0; simp
    · have hb : ((t0, Bar.empty).1 == tic) = false := by
        simp only [beq_eq_false_iff_ne, ne_eq]
        exact h0
      rw [hb]
      have hmem : tic ∈ rest := by
        rcases List.mem_cons.mp h with h1 | h1
        · exact absurd h1.symm h0
        · exact h1
      exact ih hmem

/-- Every entry of the initial dict holds a fresh bar, so any successful
lookup yields `Bar.empty`. -/
theorem lookupBar_map_empty_cases (tickers : List String) (tic : String) :
    lookupBar (tickers.map (fun t => (t, Bar.empty))) tic = none ∨
      lookupBar (tickers.map (fun t => (t, Bar.empty))) tic = some Bar.empty := by
  induction tickers with
  | nil => left; rfl
  | cons t0 rest ih =>
    simp only [List.map_cons]
    unfold lookupBar
    rw [List.find?_cons]
    by_cases h0 : t0 = tic
    · subst h0; simp
    · have hb : ((t0, Bar.empty).1 == tic) = false := by
        simp only [beq_eq_false_iff_ne, ne_eq]
        exact h0
      rw [hb]
      exact ih

/-- Regardless of the frequency, `TimedBars.__init__` leaves `timestamp`
unset and fills the dict with fresh bars. -/
theorem TimedBars.init_fields (tickers : List String) (freq : Freq) :
    (TimedBars.init tickers freq).timestamp = none ∧
      (TimedBars.init tickers freq).data = tickers.map (fun t => (t, Bar.empty)) := by
  cases freq <;> simp [TimedBars.init]

/-- A first `__call__` (no period started yet) on an instance whose `unit`
attribute was never assigned raises `AttributeError`, provided the ticker is
in the dict with a fresh bar. -/
theorem TimedBars.call_first_attr (tb : TimedBars) (t : ℚ) (tic : String) (p : ℚ)
    (hts : tb.timestamp = none) (hu : tb.unit = none)
    (hl : lookupBar tb.data tic = some Bar.empty) :
    tb.call t tic p = .error .attributeError := by
  have hup : Bar.empty.update p = some ⟨some p, some p, some p, some p⟩ := by
    simp [Bar.update, Bar.empty]
  simp [TimedBars.call, hl, hup, hts, hu]

/-- A first `__call__` on an instance whose `unit` attribute is assigned
never raises `AttributeError`. -/
theorem TimedBars.call_first_not_attr (tb : TimedBars) (t : ℚ) (tic : String)
    (p : ℚ) (u : String) (hts : tb.timestamp = none) (hu : tb.unit = some u) :
    tb.call t tic p ≠ .error .attributeError := by
  cases hl : lookupBar tb.data tic with
  | none => simp [TimedBars.call, hl]
  | some bar =>
    cases hup : bar.update p with
    | none => simp [TimedBars.call, hl, hup]
    | some b =>
      cases hf : floorStamp u t <;> simp [TimedBars.call, hl, hup, hts, hu, hf]

/-- C4: every `CCode` value other than `Succeeded` is a negative integer, and
`Succeeded` is exactly 0, so the single numeric reply field is unambiguous:
negative means error code, non-negative means success. -/
theorem ccode_sign_invariant :
    CCode.val .Succeeded = 0 ∧ ∀ c : CCode, c = .Succeeded ∨ CCode.val c < 0 := by
  refine ⟨rfl, ?_⟩
  intro c
  cases c <;> simp [CCode.val]

/-- C5 counterexample: the catalog does not contain the name
`MissingRequiredResource` under the value −2 (the source spells it
`MissingRequiredPort`), so the claimed name/value catalog does not match the
code. -/
theorem ccode_catalog_missing_claimed_name :
    ("MissingRequiredResource", (-2 : ℤ)) ∉ ccodeCatalog ∧
      ("UnknownBroker", (-5 : ℤ)) ∉ ccodeCatalog := by
  constructor <;> decide

/-- C5 (amended): the response-code catalog assigns exactly `Succeeded=0`,
`AlreadyRegistered=-1`, `MissingRequiredPort=-2`, `NotInRegistry=-3`,
`UnknownRequest=-4`, `UnKnownBroker=-5`, `ServerNotOnline=-6`,
`MissingDataServerInfo=-7`, `MissingName=-8`, each listed name being present
under that value, and these are all the members. -/
theorem ccode_catalog_exact :
    ccodeCatalog =
      [("Succeeded", 0), ("AlreadyRegistered", -1), ("MissingRequiredPort", -2),
       ("NotInRegistry", -3), ("UnknownRequest", -4), ("UnKnownBroker", -5),
       ("ServerNotOnline", -6), ("MissingDataServerInfo", -7), ("MissingName", -8)] ∧
      ∀ c : CCode, (c.pyName, c.val) ∈ ccodeCatalog := by
  refine ⟨by decide, ?_⟩
  intro c
  exact List.mem_map_of_mem _ (mem_ccodeList c)

/-- C8: applying any non-empty sequence of prices to a fresh `Bar` via
`update` succeeds, and a subsequent `clear` returns the tuple
(first price, maximum, minimum, last price) and leaves all four fields reset
to `None`. -/
theorem bar_ohlc_correct (p : ℚ) (ps : List ℚ) :
    ∃ b : Bar, Bar.updates Bar.empty (p :: ps) = some b ∧
      (b.clear).1 = (some p, some (ps.foldl max p), some (ps.foldl min p),
                     some ((p :: ps).getLast (by simp))) ∧
      (b.clear).2 = Bar.empty := by
  refine ⟨⟨some p, some (ps.foldl max p), some (ps.foldl min p),
          some (ps.foldl (fun _ x => x) p)⟩, ?_, ?_, rfl⟩
  · show Bar.updates Bar.empty (p :: ps) = _
    have h1 : Bar.update Bar.empty p = some ⟨some p, some p, some p, some p⟩ := by
      simp [Bar.update, Bar.empty]
    simp only [Bar.updates, h1, Bar.updates_full]
  · simp [Bar.clear, foldl_keep_last]

/-- C9: for every `BarPanel` with lookback ≥ 1, after any sequence of calls
the four stored arrays have equal row counts, each at most `lookback`; and
whenever a call returns a bar it returns the bar time together with exactly
the four stored arrays. -/
theorem barpanel_row_invariant :
    (∀ (tickers : List String) (freq : Freq) (lookback : ℕ)
       (inputs : List (ℚ × String × ℚ)) (bp2 : BarPanel), 1 ≤ lookback →
       (BarPanel.init tickers freq lookback).applyCalls inputs = .ok bp2 →
       bp2.opens.length = bp2.highs.length ∧ bp2.opens.length = bp2.lows.length ∧
         bp2.opens.length = bp2.closes.length ∧ bp2.opens.length ≤ lookback) ∧
    (∀ (bp : BarPanel) (t : ℚ) (tic : String) (p : ℚ) (bp2 : BarPanel) (t2 : ℚ)
       (os hs ls cs : List (List ℚ)),
       bp.call t tic p = .ok (bp2, some (t2, os, hs, ls, cs)) →
       os = bp2.opens ∧ hs = bp2.highs ∧ ls = bp2.lows ∧ cs = bp2.closes) := by
  constructor
  · intro tickers freq lookback inputs bp2 hlb h
    have hinv0 : (BarPanel.init tickers freq lookback).rowInv := by
      simp [BarPanel.rowInv, BarPanel.init]
    obtain ⟨⟨a, b, c, d⟩, hl⟩ :=
      BarPanel.applyCalls_inv inputs (BarPanel.init tickers freq lookback) bp2 hlb hinv0 h
    rw [hl] at d
    exact ⟨a, b, c, d⟩
  · exact BarPanel.call_returns_stored

/-- Witness for C9 at a concrete panel and tick sequence. -/
theorem barpanel_row_invariant_witness :
    1 ≤ 1 ∧
    (BarPanel.init ["a"] Freq.TICK 1).applyCalls panelInputs = .ok panelFinal ∧
    (panelFinal.opens.length = panelFinal.highs.length ∧
     panelFinal.opens.length = panelFinal.lows.length ∧
     panelFinal.opens.length = panelFinal.closes.length ∧
     panelFinal.opens.length ≤ 1) :=
  have hrun : (BarPanel.init ["a"] Freq.TICK 1).applyCalls panelInputs = .ok panelFinal := by
    decide
  ⟨Nat.le_refl 1, hrun,
   barpanel_row_invariant.1 ["a"] Freq.TICK 1 panelInputs panelFinal
     (Nat.le_refl 1) hrun⟩

/-- C10: with frequency `SECOND`, `SECOND5` or `SECOND10`, `TimedBars.init`
never assigns `delta` and `unit`, so the first `__call__` (on a configured
ticker) fails with an `AttributeError`; for every other frequency both
attributes are assigned and `__call__` never fails with an attribute error
on that path. -/
theorem timedbars_second_attr_error :
    (∀ (tickers : List String) (freq : Freq) (t : ℚ) (tic : String) (p : ℚ),
      (freq = Freq.SECOND ∨ freq = Freq.SECOND5 ∨ freq = Freq.SECOND10) →
      tic ∈ tickers →
      (TimedBars.init tickers freq).delta = none ∧
      (TimedBars.init tickers freq).unit = none ∧
      (TimedBars.init tickers freq).call t tic p = .error .attributeError) ∧
    (∀ (tickers : List String) (freq : Freq) (t : ℚ) (tic : String) (p : ℚ),
      ¬ (freq = Freq.SECOND ∨ freq = Freq.SECOND5 ∨ freq = Freq.SECOND10) →
      (TimedBars.init tickers freq).delta.isSome = true ∧
      (TimedBars.init tickers freq).unit.isSome = true ∧
      (TimedBars.init tickers freq).call t tic p ≠ .error .attributeError) := by
  constructor
  · intro tickers freq t tic p hf hmem
    have hinit := TimedBars.init_fields tickers freq
    have hl : lookupBar (TimedBars.init tickers freq).data tic = some Bar.empty := by
      rw [hinit.2]
      exact lookupBar_map_empty_of_mem tickers tic hmem
    have hu : (TimedBars.init tickers freq).unit = none := by
      rcases hf with h | h | h <;> subst h <;> rfl
    have hd : (TimedBars.init tickers freq).delta = none := by
      rcases hf with h | h | h <;> subst h <;> rfl
    exact ⟨hd, hu, TimedBars.call_first_attr _ t tic p hinit.1 hu hl⟩
  · intro tickers freq t tic p hf
    have hinit := TimedBars.init_fields tickers freq
    cases freq with
    | SECOND => exact absurd (Or.inl rfl) hf
    | SECOND5 => exact absurd (Or.inr (Or.inl rfl)) hf
    | SECOND10 => exact absurd (Or.inr (Or.inr rfl)) hf
    | MONTHLY =>
        exact ⟨rfl, rfl, TimedBars.call_first_not_attr _ t tic p "M" hinit.1 rfl⟩
    | DAILY =>
        exact ⟨rfl, rfl, TimedBars.call_first_not_attr _ t tic p "D" hinit.1 rfl⟩
    | HOURLY =>
        exact ⟨rfl, rfl, TimedBars.call_first_not_attr _ t tic p "H" hinit.1 rfl⟩
    | MINUTE =>
        exact ⟨rfl, rfl, TimedBars.call_first_not_attr _ t tic p "min" hinit.1 rfl⟩
    | MINUTE5 =>
        exact ⟨rfl, rfl, TimedBars.call_first_not_attr _ t tic p "5min" hinit.1 rfl⟩
    | TICK =>
        exact ⟨rfl, rfl, TimedBars.call_first_not_attr _ t tic p "" hinit.1 rfl⟩

/-- Every message the heartbeat loop sends is the bare worker name. -/
theorem hbLoop_sent (name : String) (i tmo : ℚ) (env : ℕ → Option ℤ) :
    ∀ (fuel k : ℕ) (t : ℚ) (tr : List Ev) (e : ℚ),
      hbLoop name i tmo env k fuel t = some (tr, e) →
      ∀ m ∈ sentMsgs tr, m = name := by
  intro fuel
  induction fuel with
  | zero => intro k t tr e h; exact absurd h (by simp [hbLoop])
  | succ n ih =>
    intro k t tr e h
    unfold hbLoop at h
    cases henv : env k with
    | none =>
      rw [henv] at h
      simp only [Option.some.injEq, Prod.mk.injEq] at h
      obtain ⟨h1, -⟩ := h
      subst h1
      intro m hm
      simp [sentMsgs, hbMsg] at hm
      exact hm
    | some v =>
      rw [henv] at h
      cases hrec : hbLoop name i tmo env (k + 1) n (t + i) with
      | none => rw [hrec] at h; exact absurd h (by simp)
      | some pr =>
        obtain ⟨tr2, e2⟩ := pr
        rw [hrec] at h
        simp only [Option.some.injEq, Prod.mk.injEq] at h
        obtain ⟨h1, -⟩ := h
        subst h1
        intro m hm
        simp only [sentMsgs, List.filterMap_cons] at hm
        simp only [List.mem_cons] at hm
        rcases hm with h2 | h2
        · exact h2
        · exact ih (k + 1) (t + i) tr2 e2 hrec m h2

/-- The heartbeat loop's event trace strictly alternates send and
reply/timeout. -/
theorem hbLoop_wellFormed (name : String) (i tmo : ℚ) (env : ℕ → Option ℤ) :
    ∀ (fuel k : ℕ) (t : ℚ) (tr : List Ev) (e : ℚ),
      hbLoop name i tmo env k fuel t = some (tr, e) → wellFormed tr = true := by
  intro fuel
  induction fuel with
  | zero => intro k t tr e h; exact absurd h (by simp [hbLoop])
  | succ n ih =>
    intro k t tr e h
    unfold hbLoop at h
    cases henv : env k with
    | none =>
      rw [henv] at h
      simp only [Option.some.injEq, Prod.mk.injEq] at h
      obtain ⟨h1, -⟩ := h
      subst h1
      rfl
    | some v =>
      rw [henv] at h
      cases hrec : hbLoop name i tmo env (k + 1) n (t + i) with
      | none => rw [hrec] at h; exact absurd h (by simp)
      | some pr =>
        obtain ⟨tr2, e2⟩ := pr
        rw [hrec] at h
        simp only [Option.some.injEq, Prod.mk.injEq] at h
        obtain ⟨h1, -⟩ := h
        subst h1
        show wellFormed tr2 = true
        exact ih (k + 1) (t + i) tr2 e2 hrec

/-- Witness for C10 at a concrete second-frequency instance. -/
theorem timedbars_second_attr_error_witness :
    ((Freq.SECOND = Freq.SECOND ∨ Freq.SECOND = Freq.SECOND5 ∨
        Freq.SECOND = Freq.SECOND10) ∧ "a" ∈ ["a"]) ∧
    ((TimedBars.init ["a"] Freq.SECOND).delta = none ∧
     (TimedBars.init ["a"] Freq.SECOND).unit = none ∧
     (TimedBars.init ["a"] Freq.SECOND).call 0 "a" 1 = .error .attributeError) :=
  ⟨⟨Or.inl rfl, by decide⟩,
   timedbars_second_attr_error.1 ["a"] Freq.SECOND 0 "a" 1 (Or.inl rfl) (by decide)⟩

/-- C1: a silent registration channel fails the run with exactly
"Controller registration timeout", after at least `registrationTimeout` and
strictly before `registrationTimeout + 0.2` (for any configured timeout,
assuming the scheduling overhead is positive and below 0.2s), and the
worker sends the registration request exactly once — it never retries. -/
theorem registration_timeout_fatal (cfg : WorkerConfig) (env : ℕ → Option ℤ)
    (fuel : ℕ) (overhead : ℚ) (henv : env 0 = none)
    (h1 : 0 < overhead) (h2 : overhead < 1/5) :
    ∃ r : RunResult, runWorker cfg env fuel overhead = some r ∧
      r.errMsg = "Controller registration timeout" ∧
      cfg.registrationTimeout ≤ r.elapsed ∧
      r.elapsed < cfg.registrationTimeout + 1/5 ∧
      sentMsgs r.trace = [regMsg cfg.name cfg.requiredResource] := by
  refine ⟨⟨[.send (regMsg cfg.name cfg.requiredResource), .timeout],
          "Controller registration timeout", cfg.registrationTimeout + overhead⟩,
          ?_, rfl, ?_, ?_, rfl⟩
  · unfold runWorker
    rw [henv]
  · show cfg.registrationTimeout ≤ cfg.registrationTimeout + overhead
    linarith
  · show cfg.registrationTimeout + overhead < cfg.registrationTimeout + 1/5
    linarith

/-- Witness for C1: Scenario A with overhead 0.1s. -/
theorem registration_timeout_fatal_witness :
    envSilent 0 = none ∧ (0 : ℚ) < 1/10 ∧ (1/10 : ℚ) < 1/5 ∧
    (∃ r : RunResult, runWorker cfgA envSilent 1 (1/10) = some r ∧
      r.errMsg = "Controller registration timeout" ∧
      cfgA.registrationTimeout ≤ r.elapsed ∧
      r.elapsed < cfgA.registrationTimeout + 1/5 ∧
      sentMsgs r.trace = [regMsg cfgA.name cfgA.requiredResource]) :=
  ⟨rfl, by norm_num, by norm_num,
   registration_timeout_fatal cfgA envSilent 1 (1/10) rfl (by norm_num) (by norm_num)⟩

/-- C2: a first reply that is a known negative response code fails the run
immediately — elapsed time equal to the scheduling overhead, independent of
every configured timeout — with the code-derived message, which for
`AlreadyRegistered` (−1) is exactly "<name> already registered"; the
registration request is sent exactly once, with no retry. -/
theorem registration_rejection_immediate (cfg : WorkerConfig) (env : ℕ → Option ℤ)
    (fuel : ℕ) (overhead : ℚ) (v : ℤ) (henv : env 0 = some v)
    (hneg : v < 0) (_hknown : ∃ c : CCode, CCode.val c = v) :
    ∃ r : RunResult, runWorker cfg env fuel overhead = some r ∧
      r.errMsg = codeMessage cfg.name v ∧
      (v = -1 → r.errMsg = cfg.name ++ " already registered") ∧
      r.elapsed = overhead ∧
      sentMsgs r.trace = [regMsg cfg.name cfg.requiredResource] := by
  refine ⟨⟨[.send (regMsg cfg.name cfg.requiredResource), .reply v],
          codeMessage cfg.name v, overhead⟩, ?_, rfl, ?_, rfl, rfl⟩
  · unfold runWorker
    rw [henv]
    simp [hneg]
  · intro hv
    subst hv
    simp [codeMessage]

/-- Witness for C2: Scenario B, immediate "-1" reply. -/
theorem registration_rejection_immediate_witness :
    envReject 0 = some (-1) ∧ ((-1 : ℤ) < 0) ∧ CCode.val .AlreadyRegistered = -1 ∧
    (∃ r : RunResult, runWorker cfgB envReject 1 (1/100) = some r ∧
      r.errMsg = codeMessage cfgB.name (-1) ∧
      ((-1 : ℤ) = -1 → r.errMsg = cfgB.name ++ " already registered") ∧
      r.elapsed = 1/100 ∧
      sentMsgs r.trace = [regMsg cfgB.name cfgB.requiredResource]) :=
  ⟨rfl, by norm_num, rfl,
   registration_rejection_immediate cfgB envReject 1 (1/100) (-1) rfl (by norm_num)
     ⟨.AlreadyRegistered, rfl⟩⟩

/-- C3: every run's first control-channel message is "<name>|<resource>"
and every later one is the bare "<name>"; in Scenario C (registration
answered 8, four heartbeats answered at 0.5s spacing, then silence,
heartbeat timeout 0.2s) the controller observes exactly
["w|7", "w", "w", "w", "w"] and the worker fails with
"Controller unreachable" at elapsed time in (2.0, 2.5) (overhead below
0.3s). -/
theorem worker_message_protocol :
    (∀ (cfg : WorkerConfig) (env : ℕ → Option ℤ) (fuel : ℕ) (overhead : ℚ)
       (r : RunResult), runWorker cfg env fuel overhead = some r →
       (sentMsgs r.trace).head? = some (regMsg cfg.name cfg.requiredResource) ∧
       ∀ m ∈ (sentMsgs r.trace).tail, m = cfg.name) ∧
    (∀ overhead : ℚ, 0 < overhead → overhead < 3/10 →
      ∃ r : RunResult, runWorker cfgC envC 5 overhead = some r ∧
        observedMsgs r.trace = ["w|7", "w", "w", "w", "w"] ∧
        r.errMsg = "Controller unreachable" ∧
        2 < r.elapsed ∧ r.elapsed < 5/2) := by
  constructor
  · intro cfg env fuel overhead r h
    unfold runWorker at h
    cases henv : env 0 with
    | none =>
      simp only [henv, Option.some.injEq] at h
      subst h
      exact ⟨rfl, by simp [sentMsgs]⟩
    | some v =>
      simp only [henv] at h
      by_cases hv : v < 0
      · rw [if_pos hv] at h
        simp only [Option.some.injEq] at h
        subst h
        exact ⟨rfl, by simp [sentMsgs]⟩
      · rw [if_neg hv] at h
        cases hrec : hbLoop cfg.name cfg.heartbeatInterval cfg.heartbeatTimeout env 1 fuel 0 with
        | none => rw [hrec] at h; exact absurd h (by simp)
        | some pr =>
          obtain ⟨tr, e⟩ := pr
          rw [hrec] at h
          simp only [Option.some.injEq] at h
          subst h
          constructor
          · rfl
          · show ∀ m ∈ (sentMsgs (.send (regMsg cfg.name cfg.requiredResource) :: .reply v :: tr)).tail,
              m = cfg.name
            simp only [sentMsgs, List.filterMap_cons, List.tail_cons]
            intro m hm
            exact hbLoop_sent cfg.name cfg.heartbeatInterval cfg.heartbeatTimeout env
              fuel 1 0 tr e hrec m hm
  · intro overhead h1 h2
    have hrun : runWorker cfgC envC 5 overhead =
        some ⟨[.send (regMsg "w" 7), .reply 8,
               .send "w", .reply 0, .send "w", .reply 0, .send "w", .reply 0,
               .send "w", .reply 0, .send "w", .timeout],
              "Controller unreachable", 11/5 + overhead⟩ := by
      norm_num [runWorker, hbLoop, envC, cfgC, hbMsg]
    refine ⟨_, hrun, ?_, rfl, ?_, ?_⟩
    · have : regMsg "w" 7 = "w|7" := by decide
      simp [observedMsgs, this]
    · show 2 < 11/5 + overhead
      linarith
    · show 11/5 + overhead < 5/2
      linarith

/-- Witness for C3's scenario part at overhead 0.05s (the protocol part is
hypothesis-free only given a run; this instantiates both conjuncts). -/
theorem worker_message_protocol_witness :
    ((0 : ℚ) < 1/20 ∧ (1/20 : ℚ) < 3/10) ∧
    (∃ r : RunResult, runWorker cfgC envC 5 (1/20) = some r ∧
      observedMsgs r.trace = ["w|7", "w", "w", "w", "w"] ∧
      r.errMsg = "Controller unreachable" ∧
      2 < r.elapsed ∧ r.elapsed < 5/2) :=
  ⟨⟨by norm_num, by norm_num⟩,
   worker_message_protocol.2 (1/20) (by norm_num) (by norm_num)⟩

/-- C6: the worker never has two heartbeats in flight at once — on every
run the control channel's event trace strictly alternates: each send is
followed by its reply or its timeout before the next send. -/
theorem heartbeat_no_overlap (cfg : WorkerConfig) (env : ℕ → Option ℤ)
    (fuel : ℕ) (overhead : ℚ) (r : RunResult)
    (h : runWorker cfg env fuel overhead = some r) : wellFormed r.trace = true := by
  unfold runWorker at h
  cases henv : env 0 with
  | none =>
    simp only [henv, Option.some.injEq] at h
    subst h
    rfl
  | some v =>
    simp only [henv] at h
    by_cases hv : v < 0
    · rw [if_pos hv] at h
      simp only [Option.some.injEq] at h
      subst h
      rfl
    · rw [if_neg hv] at h
      cases hrec : hbLoop cfg.name cfg.heartbeatInterval cfg.heartbeatTimeout env 1 fuel 0 with
      | none => rw [hrec] at h; exact absurd h (by simp)
      | some pr =>
        obtain ⟨tr, e⟩ := pr
        rw [hrec] at h
        simp only [Option.some.injEq] at h
        subst h
        show wellFormed tr = true
        exact hbLoop_wellFormed cfg.name cfg.heartbeatInterval cfg.heartbeatTimeout env
          fuel 1 0 tr e hrec

/-- Witness for C6: the Scenario C run's trace alternates strictly. -/
theorem heartbeat_no_overlap_witness :
    wellFormed [Ev.send (regMsg "w" 7), Ev.reply 8,
                Ev.send "w", Ev.reply 0, Ev.send "w", Ev.reply 0,
                Ev.send "w", Ev.reply 0, Ev.send "w", Ev.reply 0,
                Ev.send "w", Ev.timeout] = true :=
  heartbeat_no_overlap cfgC envC 5 0
    ⟨[Ev.send (regMsg "w" 7), Ev.reply 8,
      Ev.send "w", Ev.reply 0, Ev.send "w", Ev.reply 0,
      Ev.send "w", Ev.reply 0, Ev.send "w", Ev.reply 0,
      Ev.send "w", Ev.timeout], "Controller unreachable", 11/5 + 0⟩
    (by norm_num [runWorker, hbLoop, envC, cfgC, hbMsg])

/-- C7: a dispatched handler that raises terminates the whole dispatch
loop: the raised error is the single terminal error, no reply is produced
for the failing command, and no later command is served. -/
theorem handler_failure_fatal (registry : List (String × Handler)) (c : String)
    (h : Handler) (e : String) (rest : List String)
    (hl : lookupHandler registry c = some h) (he : h () = .error e) :
    serve registry (c :: rest) = ([], some e) := by
  simp [serve, hl, he]

/-- Witness for C7: the mock shutdown handler's error terminates the loop
before the next command is served. -/
theorem handler_failure_fatal_witness :
    lookupHandler mockRegistry "shutdown" = some (fun _ => .error "Timesup") ∧
    ((fun _ => Except.error "Timesup" : Handler) () = Except.error "Timesup") ∧
    serve mockRegistry ["shutdown", "status"] = ([], some "Timesup") :=
  ⟨rfl, rfl,
   handler_failure_fatal mockRegistry "shutdown" (fun _ => .error "Timesup") "Timesup"
     ["status"] rfl rfl⟩

end CVXPort
